import Mathlib

set_option autoImplicit false

namespace Ironic

/-- Decidable equality of `Except` results, so that concrete runs of the
embedded operations can be checked by evaluation. -/
instance {ε α : Type} [DecidableEq ε] [DecidableEq α] :
    DecidableEq (Except ε α) := fun x y =>
  match x, y with
  | .ok a, .ok b =>
    if h : a = b then isTrue (by rw [h])
    else isFalse (fun hc => by cases hc; exact h rfl)
  | .error a, .error b =>
    if h : a = b then isTrue (by rw [h])
    else isFalse (fun hc => by cases hc; exact h rfl)
  | .ok _, .error _ => isFalse (fun hc => by cases hc)
  | .error _, .ok _ => isFalse (fun hc => by cases hc)

/-- Modelled from the spec: the power-state constants of the
`ironic.common.states` module, which is not under src/.  Spec section 3
gives the value set: power_state and target_power_state range over
ON, OFF, REBOOT, ERROR, NONE.  The NONE / NOSTATE value is represented
as `Option.none` on node fields, matching the source's `is None` checks
and `= states.NOSTATE` assignments in `conductor/manager.py`. -/
inductive PState where
  | POWER_ON
  | POWER_OFF
  | REBOOT
  | ERROR
deriving DecidableEq, Repr

/-- The node row, restricted to the fields the verified handlers of
`conductor/manager.py` read or write.  `instance_info` is a Python dict
from string keys to (opaque) values, embedded as an association list
that never holds a key twice (dict semantics). -/
structure Node where
  uuid : String
  power_state : Option PState
  target_power_state : Option PState
  maintenance : Bool
  maintenance_reason : Option String
  instance_uuid : Option String
  instance_info : List (String × String)
  console_enabled : Bool
  last_error : Option String
deriving DecidableEq, Repr

/-- The literal `last_error` text set by `power_state_error_handler`. -/
def no_free_workers_msg : String := "No free conductor workers available"

/-- `power_state_error_handler` (conductor/manager.py): when the exception
raised while spawning is a `NoFreeConductorWorker`, restore `power_state`
to the supplied value, blank `target_power_state` (NOSTATE, i.e. `none`)
and record `last_error`; then save.  The saved node is the return value. -/
def power_state_error_handler (e_is_no_free_worker : Bool) (node : Node)
    (power_state : Option PState) : Node :=
  if e_is_no_free_worker then
    { node with power_state := power_state,
                target_power_state := none,
                last_error := some no_free_workers_msg }
  else node

/-- Outcome of `change_node_power_state`: the RPC either returns after
handing the power action to a worker, fails validation, or propagates
`NoFreeConductorWorker`; in every case the final saved node row is kept. -/
inductive CnpsOutcome where
  | ok (node : Node)
  | invalidParams (node : Node)
  | noFreeWorker (node : Node)
deriving DecidableEq, Repr

/-- `ConductorManager.change_node_power_state` (conductor/manager.py).
`validate_ok` abstracts `task.driver.power.validate` (driver code is out
of scope); `spawn_ok` abstracts whether `self._spawn_worker` had a free
slot.  The task-manager plumbing that invokes the registered spawn error
hook is not under src/; per spec section 4.D, when the spawner raises
`NoFreeConductorWorker` the configured `spawn_error_hook` runs, with the
arguments recorded by `task.set_spawn_error_hook` (here: the node after
the target/last_error update, and its `power_state` at registration
time). -/
def change_node_power_state (node : Node) (new_state : PState)
    (validate_ok spawn_ok : Bool) : CnpsOutcome :=
  if !validate_ok then .invalidParams node
  else
    let tgt : Option PState :=
      if new_state = PState.REBOOT then some PState.POWER_ON else some new_state
    let n1 : Node := { node with target_power_state := tgt, last_error := none }
    if spawn_ok then .ok n1
    else .noFreeWorker (power_state_error_handler true n1 n1.power_state)

/-- Claim C1: `change_node_power_state` sets `target_power_state` to the
requested state with REBOOT mapped to POWER_ON, clears `last_error` and
saves; on spawn failure with `NoFreeConductorWorker` the registered error
handler restores `power_state` to its value before the call, sets
`target_power_state` to NOSTATE (`none`) and sets `last_error` to a
message mentioning "No free conductor workers". -/
theorem change_node_power_state_correct (node : Node) (new_state : PState)
    (spawn_ok : Bool) :
    change_node_power_state node new_state true spawn_ok =
      (if spawn_ok then
        CnpsOutcome.ok { node with
          target_power_state :=
            if new_state = PState.REBOOT then some PState.POWER_ON
            else some new_state,
          last_error := none }
      else
        CnpsOutcome.noFreeWorker { node with
          power_state := node.power_state,
          target_power_state := none,
          last_error := some ("No free conductor workers" ++ " available") }) := by
  cases spawn_ok <;>
    simp [change_node_power_state, power_state_error_handler, no_free_workers_msg]

/-- The node table of the Store (spec section 4.C), as the list of node
rows.  A well-formed store holds each uuid at most once. -/
abbrev Store := List Node

/-- Saving a changed node object (`node_obj.save()`): the stored row with
the same uuid is replaced. -/
def save_node (s : Store) (n : Node) : Store :=
  s.map fun m => if m.uuid = n.uuid then n else m

/-- Error kinds raised by `destroy_node` / `get_node`. -/
inductive DestroyErr where
  | nodeNotFound
  | nodeAssociated
  | nodeInWrongPowerState
deriving DecidableEq, Repr

/-- `dbapi.get_node` as consumed by the manager: look the row up by uuid,
failing with NodeNotFound when absent. -/
def get_node (s : Store) (node_id : String) : Except DestroyErr Node :=
  match s.find? (fun n => n.uuid == node_id) with
  | some n => .ok n
  | none => .error .nodeNotFound

/-- `ConductorManager.destroy_node` (conductor/manager.py): acquire the
node; refuse with NodeAssociated when `instance_uuid` is set; refuse with
NodeInWrongPowerState when `power_state` is not POWER_OFF or NOSTATE;
otherwise delete the row (`node.destroy()`).  Returns the resulting store
together with the error, if any; on error the store is returned
untouched. -/
def destroy_node (s : Store) (node_id : String) : Store × Option DestroyErr :=
  match s.find? (fun n => n.uuid == node_id) with
  | none => (s, some .nodeNotFound)
  | some node =>
    if node.instance_uuid ≠ none then (s, some .nodeAssociated)
    else if node.power_state = some PState.POWER_OFF ∨ node.power_state = none then
      (s.eraseP (fun n => n.uuid == node_id), none)
    else (s, some .nodeInWrongPowerState)

theorem find_none_of_no_key (u : String) :
    ∀ (s : Store), (∀ x ∈ s, x.uuid ≠ u) →
      s.find? (fun n => n.uuid == u) = none := by
  intro s
  induction s with
  | nil => intro _; rfl
  | cons h t ih =>
    intro hall
    have hh : h.uuid ≠ u := hall h (List.mem_cons_self h t)
    rw [List.find?_cons_of_neg _ (by simp [hh])]
    exact ih fun x hx => hall x (List.mem_cons_of_mem h hx)

theorem find_eraseP_uuid (u : String) :
    ∀ (s : Store), s.Pairwise (fun a b => a.uuid ≠ b.uuid) →
      (s.eraseP (fun n => n.uuid == u)).find? (fun n => n.uuid == u) = none := by
  intro s
  induction s with
  | nil => intro _; rfl
  | cons h t ih =>
    intro hp
    rcases List.pairwise_cons.mp hp with ⟨hhead, htail⟩
    by_cases hh : h.uuid = u
    · have hb : (h.uuid == u) = true := by simp [hh]
      rw [List.eraseP_cons]
      simp only [hb, cond_true]
      apply find_none_of_no_key
      intro x hx
      have hne := hhead x hx
      rw [hh] at hne
      exact fun hxu => hne hxu.symm
    · have hb : (h.uuid == u) = false := by simp [hh]
      rw [List.eraseP_cons]
      simp only [hb, cond_false]
      rw [List.find?_cons_of_neg _ (by simp [hh])]
      exact ih htail

/-- Claim C3: `destroy_node` fails with NodeAssociated when the node's
`instance_uuid` is set and with NodeInWrongPowerState when its
`power_state` is neither POWER_OFF nor NOSTATE, leaving the store
unchanged in both failure cases; when neither precondition fails, the
node is destroyed and a subsequent `get_node` fails with NodeNotFound. -/
theorem destroy_node_correct (s : Store) (u : String) (n : Node)
    (huniq : s.Pairwise (fun a b => a.uuid ≠ b.uuid))
    (hget : get_node s u = .ok n) :
    (n.instance_uuid ≠ none →
      destroy_node s u = (s, some DestroyErr.nodeAssociated)) ∧
    (n.instance_uuid = none →
     ¬(n.power_state = some PState.POWER_OFF ∨ n.power_state = none) →
      destroy_node s u = (s, some DestroyErr.nodeInWrongPowerState)) ∧
    (n.instance_uuid = none →
     (n.power_state = some PState.POWER_OFF ∨ n.power_state = none) →
      (destroy_node s u).2 = none ∧
      get_node (destroy_node s u).1 u = .error DestroyErr.nodeNotFound) := by
  have hfind : s.find? (fun m => m.uuid == u) = some n := by
    unfold get_node at hget
    cases hf : s.find? (fun m => m.uuid == u) with
    | none => rw [hf] at hget; exact absurd hget (by simp)
    | some m => rw [hf] at hget; simp at hget; rw [hget]
  refine ⟨?_, ?_, ?_⟩
  · intro hassoc
    unfold destroy_node
    rw [hfind]
    simp [hassoc]
  · intro hassoc hpower
    unfold destroy_node
    rw [hfind]
    simp [hassoc, hpower]
  · intro hassoc hpower
    unfold destroy_node
    rw [hfind]
    simp only [hassoc, ne_eq, not_true_eq_false, if_false, if_pos hpower,
      reduceIte]
    refine ⟨trivial, ?_⟩
    unfold get_node
    rw [find_eraseP_uuid u s huniq]

/-- A concrete unassociated, powered-off node used as a test row. -/
def off_node : Node :=
  { uuid := "n1", power_state := some PState.POWER_OFF,
    target_power_state := none, maintenance := false,
    maintenance_reason := none, instance_uuid := none,
    instance_info := [], console_enabled := false, last_error := none }

/-- Witness for C3 at a concrete one-node store: destroying the free,
powered-off node removes it and a later lookup fails. -/
theorem destroy_node_correct_witness :
    (destroy_node [off_node] "n1").2 = none ∧
    get_node (destroy_node [off_node] "n1").1 "n1" =
      .error DestroyErr.nodeNotFound := by
  exact (destroy_node_correct [off_node] "n1" off_node (by simp)
    (by decide)).2.2 (by decide) (by decide)

/-- `ConductorManager.update_node` (conductor/manager.py): `delta` is the
set of changed fields reported by `node_obj.obj_what_changed()`.  A
change to `power_state` is rejected before any save; when the delta sets
`maintenance` to false, `maintenance_reason` is cleared before the save.
The result pairs the store after the call with the RPC outcome. -/
def update_node (s : Store) (node_obj : Node) (delta : List String) :
    Store × Except String Node :=
  if delta.contains "power_state" then
    (s, .error "Invalid method call: update_node can not change node state.")
  else
    let node_obj :=
      if delta.contains "maintenance" && !node_obj.maintenance then
        { node_obj with maintenance_reason := none }
      else node_obj
    (save_node s node_obj, .ok node_obj)

/-- Claim C4: when the delta includes `power_state`, `update_node` fails
and the stored rows are unchanged (no save); when the delta sets
`maintenance` to false, `maintenance_reason` is cleared before saving and
the updated node object is returned. -/
theorem update_node_correct (s : Store) (node_obj : Node)
    (delta : List String) :
    (delta.contains "power_state" = true →
      (update_node s node_obj delta).1 = s ∧
      ∃ msg, (update_node s node_obj delta).2 = .error msg) ∧
    (delta.contains "power_state" = false →
     delta.contains "maintenance" = true →
     node_obj.maintenance = false →
      update_node s node_obj delta =
        (save_node s { node_obj with maintenance_reason := none },
         .ok { node_obj with maintenance_reason := none })) := by
  constructor
  · intro hps
    unfold update_node
    rw [hps]
    exact ⟨rfl, _, rfl⟩
  · intro hps hm hmf
    have hmem : "maintenance" ∈ delta := by simpa using hm
    have hpsm : "power_state" ∉ delta := by simpa using hps
    simp [update_node, hpsm, hmem, hmf]

/-- Witness for C4: a power_state delta is rejected with the store kept,
and a maintenance-clearing delta scrubs `maintenance_reason`. -/
theorem update_node_correct_witness :
    ((update_node []
        { uuid := "n1", power_state := none, target_power_state := none,
          maintenance := false, maintenance_reason := some "down",
          instance_uuid := none, instance_info := [],
          console_enabled := false, last_error := none }
        ["power_state"]).1 = ([] : Store) ∧
      ∃ msg, (update_node []
        { uuid := "n1", power_state := none, target_power_state := none,
          maintenance := false, maintenance_reason := some "down",
          instance_uuid := none, instance_info := [],
          console_enabled := false, last_error := none }
        ["power_state"]).2 = .error msg) ∧
    update_node []
        { uuid := "n1", power_state := none, target_power_state := none,
          maintenance := false, maintenance_reason := some "down",
          instance_uuid := none, instance_info := [],
          console_enabled := false, last_error := none }
        ["maintenance"] =
      (save_node []
        { uuid := "n1", power_state := none, target_power_state := none,
          maintenance := false, maintenance_reason := none,
          instance_uuid := none, instance_info := [],
          console_enabled := false, last_error := none },
       .ok { uuid := "n1", power_state := none, target_power_state := none,
             maintenance := false, maintenance_reason := none,
             instance_uuid := none, instance_info := [],
             console_enabled := false, last_error := none }) := by
  constructor
  · exact (update_node_correct [] _ ["power_state"]).1 (by decide)
  · exact (update_node_correct [] _ ["maintenance"]).2
      (by decide) (by decide) (by decide)

/-- `instance_info.pop(k, None)`: remove the key from the dict if present.
Python dicts hold a key at most once, so removal drops every pair whose
key matches. -/
def pop_key (info : List (String × String)) (k : String) :
    List (String × String) :=
  info.filter (fun kv => !(kv.1 == k))

theorem lookup_pop_key_self (k : String) :
    ∀ (info : List (String × String)), (pop_key info k).lookup k = none := by
  intro info
  induction info with
  | nil => rfl
  | cons kv t ih =>
    by_cases hk : kv.1 = k
    · simp only [pop_key, List.filter]
      simp [hk]
      simpa [pop_key] using ih
    · have hb : (kv.1 == k) = false := beq_false_of_ne hk
      simp only [pop_key, List.filter, hb, Bool.not_false]
      have hkb : (k == kv.1) = false := beq_false_of_ne (Ne.symm hk)
      simp only [List.lookup, hkb]
      simpa [pop_key] using ih

theorem lookup_pop_key_other (k k2 : String) (hne : k ≠ k2) :
    ∀ (info : List (String × String)),
      (pop_key info k2).lookup k = info.lookup k := by
  intro info
  induction info with
  | nil => rfl
  | cons kv t ih =>
    by_cases hk : kv.1 = k2
    · have hb : (kv.1 == k2) = true := by simp [hk]
      have hkb : (k == kv.1) = false := by
        apply beq_false_of_ne
        rw [hk]
        exact hne
      simp only [pop_key, List.filter, hb, Bool.not_true, List.lookup, hkb]
      simpa [pop_key] using ih
    · have hb : (kv.1 == k2) = false := beq_false_of_ne hk
      simp only [pop_key, List.filter, hb, Bool.not_false, List.lookup]
      cases hkk : (k == kv.1) with
      | true => rfl
      | false => simpa [pop_key] using ih

theorem pop_key_of_lookup_none (k : String) :
    ∀ (info : List (String × String)), info.lookup k = none →
      pop_key info k = info := by
  intro info
  induction info with
  | nil => intro _; rfl
  | cons kv t ih =>
    intro hl
    have hkb : (k == kv.1) = false := by
      cases h : (k == kv.1) with
      | true =>
        simp only [List.lookup, h] at hl
        exact Option.noConfusion hl
      | false => rfl
    have hb : (kv.1 == k) = false := by
      cases h : (kv.1 == k) with
      | true =>
        have : kv.1 = k := by simpa using h
        simp [this] at hkb
      | false => rfl
    simp only [List.lookup, hkb] at hl
    simp only [pop_key, List.filter, hb, Bool.not_false]
    rw [show t.filter (fun kv => !(kv.1 == k)) = pop_key t k from rfl, ih hl]

/-- Actions `do_node_deploy` performs on the task, in order. -/
inductive DeployAct where
  | save_node
  | process_event (e : String)
deriving DecidableEq, Repr

/-- Error kinds raised by the `do_node_deploy` RPC handler. -/
inductive DeployErr where
  | nodeInMaintenance
  | instanceDeployFailure
deriving DecidableEq, Repr

/-- `ConductorManager.do_node_deploy` (conductor/manager.py).
`validate_ok` abstracts `power.validate` / `deploy.validate` (driver code
is out of scope).  The FSM dispatch `task.process_event` lives in
task_manager, which is not under src/; per spec section 4.D it advances
the provisioning FSM and defers the callback, so here it is recorded in
the returned action trace (in execution order) rather than interpreted.
The maintenance check comes first; on rebuild the cached `kernel` and
`ramdisk` keys are popped from `instance_info` and the node saved before
the event is processed. -/
def do_node_deploy (node : Node) (rebuild : Bool) (validate_ok : Bool) :
    List DeployAct × Except DeployErr Node :=
  if node.maintenance then ([], .error .nodeInMaintenance)
  else if !validate_ok then ([], .error .instanceDeployFailure)
  else if rebuild then
    let instance_info := pop_key (pop_key node.instance_info "kernel") "ramdisk"
    let n := { node with instance_info := instance_info }
    ([DeployAct.save_node, DeployAct.process_event "rebuild"], .ok n)
  else ([DeployAct.process_event "deploy"], .ok node)

/-- The node produced by the rebuild branch of `do_node_deploy`: the node
with the cached `kernel` and `ramdisk` keys popped from
`instance_info`. -/
def rebuild_purged (node : Node) : Node :=
  { node with
    instance_info :=
      pop_key (pop_key node.instance_info "kernel") "ramdisk" }

/-- Claim C5: `do_node_deploy` fails with NodeInMaintenance before any FSM
event is processed when the node is in maintenance (empty action trace);
with rebuild=true (also on repeated consecutive calls) the cached
kernel/ramdisk keys are removed from `instance_info` and the node saved
before the FSM event "rebuild" is dispatched; with rebuild=false the
event "deploy" is dispatched without purging. -/
theorem do_node_deploy_correct (node : Node) (rebuild : Bool)
    (validate_ok : Bool) :
    (node.maintenance = true →
      do_node_deploy node rebuild validate_ok =
        ([], .error DeployErr.nodeInMaintenance)) ∧
    (node.maintenance = false → validate_ok = true →
      (do_node_deploy node true validate_ok =
          ([DeployAct.save_node, DeployAct.process_event "rebuild"],
           .ok (rebuild_purged node)) ∧
        (rebuild_purged node).instance_info.lookup "kernel" = none ∧
        (rebuild_purged node).instance_info.lookup "ramdisk" = none ∧
        do_node_deploy (rebuild_purged node) true validate_ok =
          ([DeployAct.save_node, DeployAct.process_event "rebuild"],
           .ok (rebuild_purged node))) ∧
      do_node_deploy node false validate_ok =
        ([DeployAct.process_event "deploy"], .ok node)) := by
  have hk : (rebuild_purged node).instance_info.lookup "kernel" = none := by
    show (pop_key (pop_key node.instance_info "kernel")
      "ramdisk").lookup "kernel" = none
    rw [lookup_pop_key_other "kernel" "ramdisk" (by decide)]
    exact lookup_pop_key_self "kernel" node.instance_info
  have hr : (rebuild_purged node).instance_info.lookup "ramdisk" = none :=
    lookup_pop_key_self "ramdisk" (pop_key node.instance_info "kernel")
  constructor
  · intro hm
    simp [do_node_deploy, hm]
  · intro hm hv
    refine ⟨⟨?_, hk, hr, ?_⟩, ?_⟩
    · simp [do_node_deploy, hm, hv, rebuild_purged]
    · have hmaint : (rebuild_purged node).maintenance = false := hm
      simp only [do_node_deploy, hmaint, hv, Bool.not_true, if_false,
        Bool.false_eq_true, if_true, reduceIte]
      rw [pop_key_of_lookup_none "kernel" _ hk,
          pop_key_of_lookup_none "ramdisk" _ hr]
      rw [← hmaint]
    · simp [do_node_deploy, hm, hv]

/-- A concrete available node with cached kernel/ramdisk image ids. -/
def deploy_demo_node : Node :=
  { uuid := "n1", power_state := some PState.POWER_ON,
    target_power_state := none, maintenance := false,
    maintenance_reason := none, instance_uuid := some "i1",
    instance_info := [("kernel", "k1"), ("ramdisk", "r1"),
                      ("display_name", "d1")],
    console_enabled := false, last_error := none }

/-- Witness for C5: on the concrete node the rebuild path purges both
cached keys, saves, dispatches "rebuild", and doing it again purges
again before dispatch. -/
theorem do_node_deploy_correct_witness :
    (do_node_deploy deploy_demo_node true true =
        ([DeployAct.save_node, DeployAct.process_event "rebuild"],
         .ok (rebuild_purged deploy_demo_node)) ∧
      (rebuild_purged deploy_demo_node).instance_info.lookup "kernel" =
        none ∧
      (rebuild_purged deploy_demo_node).instance_info.lookup "ramdisk" =
        none ∧
      do_node_deploy (rebuild_purged deploy_demo_node) true true =
        ([DeployAct.save_node, DeployAct.process_event "rebuild"],
         .ok (rebuild_purged deploy_demo_node))) ∧
    do_node_deploy deploy_demo_node false true =
      ([DeployAct.process_event "deploy"], .ok deploy_demo_node) :=
  (do_node_deploy_correct deploy_demo_node true true).2
    (by decide) (by decide)

/-- Python's `str.upper()` for ASCII method names, character by
character. -/
def str_upper (s : String) : String := String.mk (s.data.map Char.toUpper)

/-- A vendor route table entry (`vendor_routes` value minus `func`, which
is the handler itself): the allowed HTTP methods, upper-case, and the
async flag. -/
structure VendorRoute where
  http_methods : List String
  is_async : Bool
deriving DecidableEq, Repr

/-- Error kinds raised on the route-table path of `vendor_passthru`. -/
inductive VendorErr where
  | invalidParameterValue (msg : String)
  | validationFailed
deriving DecidableEq, Repr

/-- `ConductorManager.vendor_passthru` (conductor/manager.py), restricted
to a driver using the route table (the deprecated legacy
`vendor_passthru` attribute path is excluded, as is the
no-vendor-interface error, which precede the route lookup).
`validate_ok` abstracts `vendor_iface.validate`; `sync_result` stands for
the value the synchronous vendor function returns.  The result mirrors
the RPC return `(response, is_async)`. -/
def vendor_passthru (vendor_routes : List (String × VendorRoute))
    (driver_method : String) (http_method : String)
    (validate_ok : Bool) (sync_result : String) :
    Except VendorErr (Option String × Bool) :=
  match vendor_routes.lookup driver_method with
  | none =>
    .error (.invalidParameterValue ("No handler for method " ++ driver_method))
  | some vendor_opts =>
    let http_method := str_upper http_method
    if !(vendor_opts.http_methods.contains http_method) then
      .error (.invalidParameterValue
        ("The method " ++ driver_method ++ " does not support HTTP " ++
         http_method))
    else if !validate_ok then .error .validationFailed
    else if vendor_opts.is_async then .ok (none, true)
    else .ok (some sync_result, false)

/-- Claim C6: on the route-table path, an unknown method fails with
InvalidParameterValue "No handler for method <name>"; a route that does
not allow the supplied HTTP method (upper-cased) fails with
InvalidParameterValue; otherwise (validation passing) the call returns
(None, true) when the route is async and (result, false) when it is
not. -/
theorem vendor_passthru_correct (vendor_routes : List (String × VendorRoute))
    (driver_method http_method : String) (validate_ok : Bool)
    (sync_result : String) :
    (vendor_routes.lookup driver_method = none →
      vendor_passthru vendor_routes driver_method http_method validate_ok
          sync_result =
        .error (.invalidParameterValue
          ("No handler for method " ++ driver_method))) ∧
    (∀ opts, vendor_routes.lookup driver_method = some opts →
      (opts.http_methods.contains (str_upper http_method) = false →
        vendor_passthru vendor_routes driver_method http_method validate_ok
            sync_result =
          .error (.invalidParameterValue
            ("The method " ++ driver_method ++ " does not support HTTP " ++
             str_upper http_method))) ∧
      (opts.http_methods.contains (str_upper http_method) = true →
       validate_ok = true →
        vendor_passthru vendor_routes driver_method http_method validate_ok
            sync_result =
          (if opts.is_async then .ok (none, true)
           else .ok (some sync_result, false)))) := by
  refine ⟨?_, ?_⟩
  · intro hnone
    simp [vendor_passthru, hnone]
  · intro opts hsome
    refine ⟨?_, ?_⟩
    · intro hhttp
      have hnm : str_upper http_method ∉ opts.http_methods := by
        simpa using hhttp
      simp [vendor_passthru, hsome, hnm]
    · intro hhttp hv
      have hm : str_upper http_method ∈ opts.http_methods := by
        simpa using hhttp
      simp [vendor_passthru, hsome, hm, hv]

/-- A concrete route table with one async POST-only method and one sync
GET method. -/
def demo_routes : List (String × VendorRoute) :=
  [("bmc_reset", { http_methods := ["POST"], is_async := true }),
   ("bios_info", { http_methods := ["GET"], is_async := false })]

/-- Witness for C6 on the concrete route table: unknown method, HTTP
method not allowed, async dispatch and sync dispatch. -/
theorem vendor_passthru_correct_witness :
    vendor_passthru demo_routes "missing" "POST" true "r" =
      .error (.invalidParameterValue ("No handler for method " ++
        "missing")) ∧
    vendor_passthru demo_routes "bmc_reset" "get" true "r" =
      .error (.invalidParameterValue
        ("The method " ++ "bmc_reset" ++ " does not support HTTP " ++
         (str_upper "get"))) ∧
    vendor_passthru demo_routes "bmc_reset" "post" true "r" =
      .ok (none, true) ∧
    vendor_passthru demo_routes "bios_info" "get" true "r" =
      .ok (some "r", false) := by
  refine ⟨?_, ?_, ?_, ?_⟩
  · exact (vendor_passthru_correct demo_routes "missing" "POST" true
      "r").1 (by decide)
  · exact ((vendor_passthru_correct demo_routes "bmc_reset" "get" true
      "r").2 { http_methods := ["POST"], is_async := true }
      (by decide)).1 (by decide)
  · exact ((vendor_passthru_correct demo_routes "bmc_reset" "post" true
      "r").2 { http_methods := ["POST"], is_async := true }
      (by decide)).2 (by decide) rfl
  · exact ((vendor_passthru_correct demo_routes "bios_info" "get" true
      "r").2 { http_methods := ["GET"], is_async := false }
      (by decide)).2 (by decide) rfl

/-- Synchronous actions taken by `set_console_mode` on the driver, node
and task, in execution order. -/
inductive ConsoleAct where
  | console_validate
  | save_node
  | spawn_set_console_mode
  | release_resources
deriving DecidableEq, Repr

/-- Error kinds raised by `set_console_mode`. -/
inductive ConsoleErr where
  | unsupportedDriverExtension
  | validationFailed
deriving DecidableEq, Repr

/-- `ConductorManager.set_console_mode` (conductor/manager.py).
`has_console` abstracts `getattr(task.driver, 'console', None)`;
`validate_ok` abstracts whether `task.driver.console.validate(task)`
passes.  The trace records, in order, the driver calls and task actions
performed by the handler itself; the spawned `_set_console_mode` worker
(which would later run start_console / stop_console) is represented by
the `spawn_set_console_mode` entry.  Returns the trace and the saved
node (or the error). -/
def set_console_mode (node : Node) (enabled : Bool)
    (has_console : Bool) (validate_ok : Bool) :
    List ConsoleAct × Except ConsoleErr Node :=
  if !has_console then ([], .error .unsupportedDriverExtension)
  else if !validate_ok then
    ([ConsoleAct.console_validate], .error .validationFailed)
  else if enabled = node.console_enabled then
    ([ConsoleAct.console_validate, ConsoleAct.release_resources], .ok node)
  else
    ([ConsoleAct.console_validate, ConsoleAct.save_node,
      ConsoleAct.spawn_set_console_mode],
     .ok { node with last_error := none })

/-- A concrete node whose console is already enabled. -/
def console_demo_node : Node :=
  { uuid := "n1", power_state := some PState.POWER_ON,
    target_power_state := none, maintenance := false,
    maintenance_reason := none, instance_uuid := none,
    instance_info := [], console_enabled := true, last_error := none }

/-- Counterexample to claim C7 as stated: requesting enabled=true on a
node whose console_enabled is already true is claimed to make "no driver
call", but the handler calls `task.driver.console.validate(task)` before
the equality check, so the trace of the call contains the console
validate driver call. -/
theorem set_console_mode_claim_counterexample :
    (set_console_mode console_demo_node true true true).1 =
      [ConsoleAct.console_validate, ConsoleAct.release_resources] ∧
    ConsoleAct.console_validate ∈
      (set_console_mode console_demo_node true true true).1 := by
  decide

/-- Claim C7 as amended: when the requested enabled value equals
`console_enabled` (and the console validate call passes),
`set_console_mode` performs no console action beyond the initial
validate driver call: no start/stop console, no worker spawned, the node
is not modified, and the task is released. -/
theorem set_console_mode_noop (node : Node) (enabled : Bool)
    (h : enabled = node.console_enabled) :
    set_console_mode node enabled true true =
      ([ConsoleAct.console_validate, ConsoleAct.release_resources],
       .ok node) := by
  simp [set_console_mode, h]

/-- Witness for C7 (amended) on the concrete enabled-console node. -/
theorem set_console_mode_noop_witness :
    set_console_mode console_demo_node true true true =
      ([ConsoleAct.console_validate, ConsoleAct.release_resources],
       .ok console_demo_node) :=
  set_console_mode_noop console_demo_node true (by decide)

/-- Per-node outcome inside one `_check_deploy_timeouts` iteration,
abstracting the ring mapping check, the task acquisition, the
re-check after locking, and the `process_event` spawn (task_manager is
not under src/; per spec section 4.D the dispatch may raise
NoFreeConductorWorker from the spawner). -/
inductive TimeoutOutcome where
  | notMapped
  | nodeLocked
  | nodeNotFound
  | recheckSkip
  | spawnFail
  | failDispatched
deriving DecidableEq, Repr

/-- The `for node_uuid, driver in node_list` loop of
`_check_deploy_timeouts`: skips do not touch `workers_count`, a
dispatched fail event increments it and breaks when it reaches
`max_workers`, and a NoFreeConductorWorker spawn failure breaks at
once.  Returns the number of fail events dispatched. -/
def deploy_timeouts_loop (max_workers : Nat) :
    List TimeoutOutcome → Nat → Nat
  | [], workers_count => workers_count
  | o :: rest, workers_count =>
    match o with
    | .notMapped => deploy_timeouts_loop max_workers rest workers_count
    | .nodeLocked => deploy_timeouts_loop max_workers rest workers_count
    | .nodeNotFound => deploy_timeouts_loop max_workers rest workers_count
    | .recheckSkip => deploy_timeouts_loop max_workers rest workers_count
    | .spawnFail => workers_count
    | .failDispatched =>
      if workers_count + 1 = max_workers then workers_count + 1
      else deploy_timeouts_loop max_workers rest (workers_count + 1)

/-- `ConductorManager._check_deploy_timeouts` (conductor/manager.py):
when `deploy_callback_timeout` is 0 (falsy) it returns before calling
`get_nodeinfo_list`; otherwise it runs the loop.  The Bool records
whether the node list was fetched; the Nat is the number of FSM fail
events dispatched this tick. -/
def check_deploy_timeouts (deploy_callback_timeout : Nat)
    (max_workers : Nat) (nodes : List TimeoutOutcome) : Bool × Nat :=
  if deploy_callback_timeout = 0 then (false, 0)
  else (true, deploy_timeouts_loop max_workers nodes 0)

theorem deploy_timeouts_loop_le (max_workers : Nat) :
    ∀ (nodes : List TimeoutOutcome) (count : Nat),
      count < max_workers → deploy_timeouts_loop max_workers nodes count ≤
        max_workers := by
  intro nodes
  induction nodes with
  | nil => intro count hc; exact Nat.le_of_lt hc
  | cons o rest ih =>
    intro count hc
    cases o with
    | notMapped => exact ih count hc
    | nodeLocked => exact ih count hc
    | nodeNotFound => exact ih count hc
    | recheckSkip => exact ih count hc
    | spawnFail => exact Nat.le_of_lt hc
    | failDispatched =>
      by_cases hcap : count + 1 = max_workers
      · simp only [deploy_timeouts_loop, hcap, if_true, reduceIte]
        omega
      · simp only [deploy_timeouts_loop, hcap, if_false, reduceIte]
        exact ih (count + 1) (by omega)

theorem deploy_timeouts_loop_break (max_workers : Nat)
    (post : List TimeoutOutcome) :
    ∀ (pre : List TimeoutOutcome) (count : Nat),
      deploy_timeouts_loop max_workers
          (pre ++ TimeoutOutcome.spawnFail :: post) count =
        deploy_timeouts_loop max_workers
          (pre ++ [TimeoutOutcome.spawnFail]) count := by
  intro pre
  induction pre with
  | nil => intro count; rfl
  | cons o rest ih =>
    intro count
    cases o with
    | notMapped => exact ih count
    | nodeLocked => exact ih count
    | nodeNotFound => exact ih count
    | recheckSkip => exact ih count
    | spawnFail => rfl
    | failDispatched =>
      by_cases hcap : count + 1 = max_workers
      · simp only [List.cons_append, deploy_timeouts_loop, hcap, if_true,
          reduceIte]
      · simp only [List.cons_append, deploy_timeouts_loop, hcap, if_false,
          reduceIte]
        exact ih (count + 1)

/-- Claim C8 as amended: with `deploy_callback_timeout = 0` the tick
returns before listing any node; otherwise, provided
`periodic_max_workers` is positive, at most that many FSM fail events
are dispatched per tick; nodes skipped for NodeLocked or NodeNotFound
(and nodes skipped by the mapping or post-lock re-check) do not count
toward the cap; and a NoFreeConductorWorker spawn failure ends the tick
early, so nodes after it are never touched.  (With
`periodic_max_workers = 0` the source's equality test `workers_count ==
periodic_max_workers` never fires and the cap is not enforced.) -/
theorem check_deploy_timeouts_correct (timeout max_workers : Nat)
    (nodes pre post : List TimeoutOutcome) (skip : TimeoutOutcome) :
    (timeout = 0 → check_deploy_timeouts timeout max_workers nodes =
      (false, 0)) ∧
    (timeout ≠ 0 → 0 < max_workers →
      (check_deploy_timeouts timeout max_workers nodes).2 ≤ max_workers) ∧
    (skip = TimeoutOutcome.nodeLocked ∨ skip = TimeoutOutcome.nodeNotFound →
      check_deploy_timeouts timeout max_workers (skip :: nodes) =
        check_deploy_timeouts timeout max_workers nodes) ∧
    check_deploy_timeouts timeout max_workers
        (pre ++ TimeoutOutcome.spawnFail :: post) =
      check_deploy_timeouts timeout max_workers
        (pre ++ [TimeoutOutcome.spawnFail]) := by
  refine ⟨?_, ?_, ?_, ?_⟩
  · intro h0
    simp [check_deploy_timeouts, h0]
  · intro hne hpos
    simp only [check_deploy_timeouts, hne, if_false, reduceIte]
    exact deploy_timeouts_loop_le max_workers nodes 0 (by omega)
  · rintro (hs | hs) <;> subst hs <;>
      simp [check_deploy_timeouts, deploy_timeouts_loop]
  · by_cases h0 : timeout = 0
    · simp [check_deploy_timeouts, h0]
    · simp only [check_deploy_timeouts, h0, if_false, reduceIte]
      rw [deploy_timeouts_loop_break]

/-- Witness for C8 (amended): with the default configuration (timeout
1800, cap 8) a tick over a concrete mixed node list dispatches at most 8
fail events, skips do not count, and a spawn failure stops the tick. -/
theorem check_deploy_timeouts_correct_witness :
    check_deploy_timeouts 0 8
        [TimeoutOutcome.failDispatched] = (false, 0) ∧
    (check_deploy_timeouts 1800 8
        [TimeoutOutcome.nodeLocked, TimeoutOutcome.failDispatched,
         TimeoutOutcome.nodeNotFound]).2 ≤ 8 ∧
    check_deploy_timeouts 1800 8
        (TimeoutOutcome.nodeLocked ::
          [TimeoutOutcome.failDispatched, TimeoutOutcome.nodeNotFound]) =
      check_deploy_timeouts 1800 8
        [TimeoutOutcome.failDispatched, TimeoutOutcome.nodeNotFound] ∧
    check_deploy_timeouts 1800 8
        ([TimeoutOutcome.failDispatched] ++ TimeoutOutcome.spawnFail ::
          [TimeoutOutcome.failDispatched, TimeoutOutcome.failDispatched]) =
      check_deploy_timeouts 1800 8
        ([TimeoutOutcome.failDispatched] ++ [TimeoutOutcome.spawnFail]) := by
  obtain ⟨h1, h2, h3, h4⟩ := check_deploy_timeouts_correct 1800 8
    [TimeoutOutcome.failDispatched, TimeoutOutcome.nodeNotFound]
    [TimeoutOutcome.failDispatched]
    [TimeoutOutcome.failDispatched, TimeoutOutcome.failDispatched]
    TimeoutOutcome.nodeLocked
  refine ⟨?_, ?_, h3 (Or.inl rfl), h4⟩
  · exact (check_deploy_timeouts_correct 0 8 [TimeoutOutcome.failDispatched]
      [] [] TimeoutOutcome.nodeLocked).1 rfl
  · exact (check_deploy_timeouts_correct 1800 8
      [TimeoutOutcome.nodeLocked, TimeoutOutcome.failDispatched,
       TimeoutOutcome.nodeNotFound] [] []
      TimeoutOutcome.nodeLocked).2.1 (by decide) (by decide)

/-- Counterexample to claim C8 as stated: the claim caps the number of
dispatched fail events at `periodic_max_workers` for every tick with a
nonzero timeout, but with `periodic_max_workers = 0` the source's `==`
break test never fires: one fail event is dispatched, exceeding the
claimed cap of 0. -/
theorem check_deploy_timeouts_claim_counterexample :
    (check_deploy_timeouts 1800 0 [TimeoutOutcome.failDispatched]).2 = 1 ∧
    ¬((check_deploy_timeouts 1800 0 [TimeoutOutcome.failDispatched]).2
        ≤ 0) := by
  decide

/-- The two configuration options of the `[conductor]` group that
`do_sync_power_state` reads (defaults: force=true, max_retries=3). -/
structure SyncConf where
  force_power_state_during_sync : Bool
  power_state_sync_max_retries : Nat
deriving DecidableEq, Repr

/-- Outcome of one `task.driver.power.get_power_state(task)` call: a
returned power-state reading, or an exception. -/
inductive GetPowerOutcome where
  | reading (p : PState)
  | raises
deriving DecidableEq, Repr

/-- Modelled from the spec: printable names of the power-state constants
of the missing `ironic.common.states` module, used only inside the
interpolated log/error message; NOSTATE prints as Python's None.  The
verified claims depend on the message being one fixed string per
(node, actual) pair, not on these exact letters. -/
def pstate_str : Option PState → String
  | none => "None"
  | some PState.POWER_ON => "power on"
  | some PState.POWER_OFF => "power off"
  | some PState.REBOOT => "rebooting"
  | some PState.ERROR => "error"

/-- The interpolated message of
`handle_sync_power_state_max_retries_exceeded`, built from the node's
uuid, the actual (hardware) state and the still-recorded expected
state. -/
def sync_failure_msg (node : Node) (actual : Option PState) : String :=
  "During sync_power_state, max retries exceeded for node " ++ node.uuid ++
  ", node state " ++ pstate_str actual ++
  " does not match expected state " ++ pstate_str node.power_state ++
  ". Updating DB state to " ++ pstate_str actual ++
  " Switching node to maintenance mode."

/-- `handle_sync_power_state_max_retries_exceeded` (conductor/manager.py):
build the message from the node before updating it, then overwrite
`power_state` with the actual reading, set `last_error`, enter
maintenance with the same message as `maintenance_reason`, and save. -/
def handle_sync_power_state_max_retries_exceeded (node : Node)
    (actual_power_state : Option PState) : Node :=
  let msg := sync_failure_msg node actual_power_state
  { node with
    power_state := actual_power_state,
    last_error := some msg,
    maintenance := true,
    maintenance_reason := some msg }

/-- `do_sync_power_state` (conductor/manager.py).  `validate_ok`
abstracts `task.driver.power.validate` (false stands for an
Invalid/MissingParameterValue); `get_outcome` abstracts
`task.driver.power.get_power_state`; `npa` abstracts
`utils.node_power_action` (conductor/utils.py is not under src/ — the
spec says it drives the hardware toward `node.power_state` and updates
the node record), applied only in the force branch when `npa_ok` is
true; a failed power action only logs, leaving the node unchanged.
Returns the node after the call together with the returned count. -/
def do_sync_power_state (conf : SyncConf) (validate_ok : Bool)
    (get_outcome : GetPowerOutcome) (npa_ok : Bool) (npa : Node → Node)
    (node : Node) (count0 : Nat) : Node × Nat :=
  let count := count0 + 1
  if node.power_state = none ∧ validate_ok = false then (node, 0)
  else
    match get_outcome with
    | .raises =>
      if conf.power_state_sync_max_retries < count then
        (handle_sync_power_state_max_retries_exceeded node none, count)
      else (node, count)
    | .reading p =>
      if p = PState.ERROR then
        if conf.power_state_sync_max_retries < count then
          (handle_sync_power_state_max_retries_exceeded node
            (some PState.ERROR), count)
        else (node, count)
      else
        let node :=
          if node.power_state = none then
            { node with power_state := some p }
          else node
        if node.power_state = some p then (node, 0)
        else if conf.power_state_sync_max_retries < count then
          (handle_sync_power_state_max_retries_exceeded node (some p), count)
        else if conf.force_power_state_during_sync then
          (if npa_ok then npa node else node, count)
        else ({ node with power_state := some p }, count)

/-- Claim C2 as amended: when `force_power_state_during_sync` is false,
the driver's validate did not cut the call short, and `get_power_state`
returned a reading other than ERROR, `do_sync_power_state` leaves the
node's recorded `power_state` equal to that reading — recording it when
there was no prior state, keeping it on a match, and overwriting it on a
mismatch (by maintenance escalation past the retry limit, by a plain
overwrite otherwise).  A reading of ERROR is instead treated like a
failed read and does not update the recorded state within the retry
limit. -/
theorem do_sync_power_state_force_false (conf : SyncConf)
    (validate_ok npa_ok : Bool) (npa : Node → Node) (node : Node)
    (count0 : Nat) (p : PState)
    (hforce : conf.force_power_state_during_sync = false)
    (hp : p ≠ PState.ERROR)
    (hreach : node.power_state ≠ none ∨ validate_ok = true) :
    (do_sync_power_state conf validate_ok (GetPowerOutcome.reading p)
        npa_ok npa node count0).1.power_state = some p := by
  have hskip : ¬(node.power_state = none ∧ validate_ok = false) := by
    rcases hreach with h | h
    · exact fun hc => h hc.1
    · exact fun hc => by rw [h] at hc; exact Bool.noConfusion hc.2
  by_cases hnone : node.power_state = none
  · have hval : validate_ok = true := by
      rcases hreach with h | h
      · exact absurd hnone h
      · exact h
    simp [do_sync_power_state, hskip, hp, hnone, hval]
  · by_cases hmatch : node.power_state = some p
    · simp [do_sync_power_state, hskip, hp, hnone, hmatch]
    · by_cases hmax : conf.power_state_sync_max_retries < count0 + 1
      · simp [do_sync_power_state, hskip, hp, hnone, hmatch, hmax,
          handle_sync_power_state_max_retries_exceeded]
      · simp [do_sync_power_state, hskip, hp, hnone, hmatch, hmax, hforce]

/-- A concrete node recorded as powered on, reachable by its driver. -/
def sync_demo_node : Node :=
  { uuid := "n1", power_state := some PState.POWER_ON,
    target_power_state := none, maintenance := false,
    maintenance_reason := none, instance_uuid := none,
    instance_info := [], console_enabled := false, last_error := none }

/-- The default-but-for-force configuration used in the C2 scenario:
force_power_state_during_sync=false, power_state_sync_max_retries=3. -/
def sync_demo_conf : SyncConf :=
  { force_power_state_during_sync := false,
    power_state_sync_max_retries := 3 }

/-- Witness for C2 (amended) at the concrete node: the driver reads
POWER_OFF while POWER_ON is recorded; with force=false the recorded
state is overwritten with the reading. -/
theorem do_sync_power_state_force_false_witness :
    (do_sync_power_state sync_demo_conf true
        (GetPowerOutcome.reading PState.POWER_OFF) true id
        sync_demo_node 0).1.power_state = some PState.POWER_OFF :=
  do_sync_power_state_force_false sync_demo_conf true true id
    sync_demo_node 0 PState.POWER_OFF (by decide) (by decide)
    (Or.inr rfl)

/-- Counterexample to claim C2 as stated: with force=false the driver
returns the reading ERROR on the first failure (count 1 ≤ max_retries
3); `do_sync_power_state` completes without raising, returning count 1,
but the recorded `power_state` stays POWER_ON instead of being
overwritten with the returned reading ERROR. -/
theorem do_sync_power_state_claim_counterexample :
    do_sync_power_state sync_demo_conf true
        (GetPowerOutcome.reading PState.ERROR) true id sync_demo_node 0 =
      (sync_demo_node, 1) ∧
    sync_demo_node.power_state = some PState.POWER_ON ∧
    (do_sync_power_state sync_demo_conf true
        (GetPowerOutcome.reading PState.ERROR) true id sync_demo_node
        0).1.power_state ≠ some PState.ERROR := by
  refine ⟨rfl, rfl, ?_⟩
  intro h
  simp [do_sync_power_state, sync_demo_node, sync_demo_conf] at h

/-- Claim C9: when the incremented failure count exceeds
`power_state_sync_max_retries` and the call got as far as reading the
hardware, the maintenance escalation runs: if `get_power_state` raised,
the recorded `power_state` is overwritten with the empty reading `none`;
if it returned ERROR, the recorded state becomes ERROR; in both cases
maintenance is set and `maintenance_reason` and `last_error` carry the
same descriptive message. -/
theorem do_sync_power_state_max_retries (conf : SyncConf)
    (validate_ok npa_ok : Bool) (npa : Node → Node) (node : Node)
    (count0 : Nat)
    (hcount : conf.power_state_sync_max_retries ≤ count0)
    (hreach : node.power_state ≠ none ∨ validate_ok = true) :
    do_sync_power_state conf validate_ok GetPowerOutcome.raises npa_ok npa
        node count0 =
      ({ node with
          power_state := none,
          maintenance := true,
          maintenance_reason := some (sync_failure_msg node none),
          last_error := some (sync_failure_msg node none) },
       count0 + 1) ∧
    do_sync_power_state conf validate_ok
        (GetPowerOutcome.reading PState.ERROR) npa_ok npa node count0 =
      ({ node with
          power_state := some PState.ERROR,
          maintenance := true,
          maintenance_reason :=
            some (sync_failure_msg node (some PState.ERROR)),
          last_error := some (sync_failure_msg node (some PState.ERROR)) },
       count0 + 1) := by
  have hskip : ¬(node.power_state = none ∧ validate_ok = false) := by
    rcases hreach with h | h
    · exact fun hc => h hc.1
    · exact fun hc => by rw [h] at hc; exact Bool.noConfusion hc.2
  have hmax : conf.power_state_sync_max_retries < count0 + 1 := by omega
  constructor
  · simp [do_sync_power_state, hskip, hmax,
      handle_sync_power_state_max_retries_exceeded]
  · simp [do_sync_power_state, hskip, hmax,
      handle_sync_power_state_max_retries_exceeded]

/-- Witness for C9 at the concrete powered-on node with the default
max_retries=3 and three prior failures: a raising driver erases the
recorded state to `none`, sets maintenance and mirrors the message into
both `maintenance_reason` and `last_error`. -/
theorem do_sync_power_state_max_retries_witness :
    do_sync_power_state sync_demo_conf true GetPowerOutcome.raises true id
        sync_demo_node 3 =
      ({ sync_demo_node with
          power_state := none,
          maintenance := true,
          maintenance_reason := some (sync_failure_msg sync_demo_node none),
          last_error := some (sync_failure_msg sync_demo_node none) },
       4) :=
  (do_sync_power_state_max_retries sync_demo_conf true true id
    sync_demo_node 3 (by decide) (Or.inr rfl)).1

/-- Python's `str.lower()` for ASCII configuration values, character by
character. -/
def str_lower (s : String) : String := String.mk (s.data.map Char.toLower)

/-- A JSON-safe `driver_info` value: iRMC driver info carries strings
(addresses, usernames, auth methods) and integers (ports, timeouts). -/
inductive JVal where
  | s (v : String)
  | i (v : Int)
deriving DecidableEq, Repr

/-- Python truthiness of a driver_info value: the empty string and zero
are falsy (`not info.get(key)`). -/
def JVal.falsy : JVal → Bool
  | .s v => v == ""
  | .i v => v == 0

/-- Python's `isinstance(v, int)`. -/
def JVal.is_int : JVal → Bool
  | .s _ => false
  | .i _ => true

/-- The node's `driver_info` dict (keys unique, dict semantics). -/
abbrev DriverInfo := List (String × JVal)

/-- The `[irmc]` configuration group of
`drivers/modules/irmc/common.py` (defaults: port=443,
auth_method="basic", client_timeout=60). -/
structure IrmcConf where
  port : Int
  auth_method : String
  client_timeout : Int
deriving DecidableEq, Repr

/-- Error outcomes of `parse_driver_info`: the two documented exception
kinds, plus the uncaught AttributeError that `.lower()` raises on a
non-string value. -/
inductive IrmcErr where
  | missingParameterValue (msg : String)
  | invalidParameterValue (msg : String)
  | attributeError
deriving DecidableEq, Repr

/-- The keys of `REQUIRED_PROPERTIES`. -/
def irmc_required_keys : List String :=
  ["irmc_address", "irmc_username", "irmc_password"]

/-- The keys of `OPTIONAL_PROPERTIES` (without the `irmc_` namespace they
gain in `d_info`). -/
def irmc_optional_params : List String :=
  ["port", "auth_method", "client_timeout"]

/-- `CONF.irmc.get(param)` for the three optional parameters. -/
def irmc_conf_get (conf : IrmcConf) (param : String) : JVal :=
  if param = "port" then .i conf.port
  else if param = "auth_method" then .s conf.auth_method
  else .i conf.client_timeout

/-- `not info.get(key)`: the required key is absent or falsy. -/
def irmc_key_missing (info : DriverInfo) (key : String) : Bool :=
  match info.lookup key with
  | none => true
  | some v => v.falsy

/-- `missing_info`: the required keys absent or falsy in driver_info. -/
def irmc_missing_info (info : DriverInfo) : List String :=
  irmc_required_keys.filter (irmc_key_missing info)

/-- The MissingParameterValue message of `parse_driver_info`. -/
def irmc_missing_msg (info : DriverInfo) : String :=
  "Missing the following iRMC parameters in node driver_info: " ++
  String.intercalate ", " (irmc_missing_info info) ++ "."

/-- `req`: the pairs of driver_info whose key is required. -/
def irmc_req (info : DriverInfo) : DriverInfo :=
  info.filter (fun kv => irmc_required_keys.contains kv.1)

/-- The effective value of optional parameter `param`:
`info.get('irmc_' + param, CONF.irmc.get(param))`. -/
def irmc_effective (conf : IrmcConf) (info : DriverInfo)
    (param : String) : JVal :=
  (info.lookup ("irmc_" ++ param)).getD (irmc_conf_get conf param)

/-- `opt`: the three optional keys with their effective values. -/
def irmc_opt (conf : IrmcConf) (info : DriverInfo) : DriverInfo :=
  irmc_optional_params.map
    (fun param => ("irmc_" ++ param, irmc_effective conf info param))

/-- `d_info = dict(req.items() + opt.items())`: required pairs from
driver_info plus the defaulted optional pairs (required and optional
keys are disjoint, so list append keeps dict semantics). -/
def irmc_d_info (conf : IrmcConf) (info : DriverInfo) : DriverInfo :=
  irmc_req info ++ irmc_opt conf info

/-- `error_msgs` of `parse_driver_info`, evaluated after the
`d_info['irmc_auth_method'].lower()` call succeeded with string value
`auth`: unsupported auth method, port outside {80, 443}, non-integer
client timeout. -/
def irmc_value_errors (conf : IrmcConf) (info : DriverInfo)
    (auth : String) : List String :=
  (if str_lower auth ≠ "basic" ∧ str_lower auth ≠ "digest" then
     ["irmc_auth_method has unsupported value."] else []) ++
  (if (irmc_d_info conf info).lookup "irmc_port" ≠ some (JVal.i 80) ∧
      (irmc_d_info conf info).lookup "irmc_port" ≠ some (JVal.i 443) then
     ["irmc_port has unsupported value."] else []) ++
  (match (irmc_d_info conf info).lookup "irmc_client_timeout" with
   | some v =>
     if v.is_int then []
     else ["irmc_client_timeout is not integer type."]
   | none => ["irmc_client_timeout is not integer type."])

/-- The InvalidParameterValue message of `parse_driver_info`. -/
def irmc_invalid_msg (conf : IrmcConf) (info : DriverInfo)
    (auth : String) : String :=
  "The following type errors were encountered while parsing " ++
  "driver_info:\n" ++
  String.intercalate "\n" (irmc_value_errors conf info auth)

/-- `parse_driver_info` (drivers/modules/irmc/common.py): raise
MissingParameterValue when a required key is absent or falsy; build
`d_info`; evaluate `d_info['irmc_auth_method'].lower()` — on a
non-string value Python raises an uncaught AttributeError here, before
the port and timeout checks (the `none` arm is unreachable because
`opt` always carries the key); collect the value errors and raise
InvalidParameterValue if any; otherwise return `d_info`. -/
def parse_driver_info (conf : IrmcConf) (info : DriverInfo) :
    Except IrmcErr DriverInfo :=
  if irmc_missing_info info ≠ [] then
    .error (.missingParameterValue (irmc_missing_msg info))
  else
    match (irmc_d_info conf info).lookup "irmc_auth_method" with
    | none => .error .attributeError
    | some (JVal.i _) => .error .attributeError
    | some (JVal.s auth) =>
      if irmc_value_errors conf info auth ≠ [] then
        .error (.invalidParameterValue (irmc_invalid_msg conf info auth))
      else .ok (irmc_d_info conf info)

theorem irmc_req_lookup_none (info : DriverInfo) (k : String)
    (h : irmc_required_keys.contains k = false) :
    (irmc_req info).lookup k = none := by
  rw [List.lookup_eq_none_iff]
  intro p hp
  have hkeep := (List.mem_filter.mp hp).2
  simp only [bne_iff_ne, ne_eq]
  intro hk
  rw [hk] at h
  rw [hkeep] at h
  exact Bool.noConfusion h

theorem irmc_req_lookup_eq (k : String) :
    ∀ (info : DriverInfo), irmc_required_keys.contains k = true →
      (irmc_req info).lookup k = info.lookup k := by
  intro info
  induction info with
  | nil => intro _; rfl
  | cons kv t ih =>
    intro h
    obtain ⟨k1, v1⟩ := kv
    by_cases hkeep : irmc_required_keys.contains k1 = true
    · simp only [irmc_req, List.filter, hkeep]
      rw [List.lookup_cons, List.lookup_cons]
      cases hk : (k == k1) with
      | true => rfl
      | false => exact ih h
    · have hkeep2 : irmc_required_keys.contains k1 = false :=
        Bool.eq_false_iff.mpr hkeep
      have hk : (k == k1) = false := by
        cases hkk : (k == k1) with
        | true =>
          have : k = k1 := by simpa using hkk
          rw [← this] at hkeep2
          rw [h] at hkeep2
          exact Bool.noConfusion hkeep2
        | false => rfl
      simp only [irmc_req, List.filter, hkeep2]
      rw [List.lookup_cons]
      simp only [hk]
      exact ih h

theorem irmc_d_info_lookup_port (conf : IrmcConf) (info : DriverInfo) :
    (irmc_d_info conf info).lookup "irmc_port" =
      some (irmc_effective conf info "port") := by
  unfold irmc_d_info
  rw [List.lookup_append, irmc_req_lookup_none info _ (by decide)]
  rfl

theorem irmc_d_info_lookup_auth (conf : IrmcConf) (info : DriverInfo) :
    (irmc_d_info conf info).lookup "irmc_auth_method" =
      some (irmc_effective conf info "auth_method") := by
  unfold irmc_d_info
  rw [List.lookup_append, irmc_req_lookup_none info _ (by decide)]
  rfl

theorem irmc_d_info_lookup_timeout (conf : IrmcConf) (info : DriverInfo) :
    (irmc_d_info conf info).lookup "irmc_client_timeout" =
      some (irmc_effective conf info "client_timeout") := by
  unfold irmc_d_info
  rw [List.lookup_append, irmc_req_lookup_none info _ (by decide)]
  rfl

theorem irmc_d_info_lookup_required (conf : IrmcConf) (info : DriverInfo)
    (k : String) (h : irmc_required_keys.contains k = true) :
    (irmc_d_info conf info).lookup k = info.lookup k := by
  unfold irmc_d_info
  rw [List.lookup_append, irmc_req_lookup_eq k info h]
  have hmem : k ∈ irmc_required_keys := by simpa using h
  have hcases : k = "irmc_address" ∨ k = "irmc_username" ∨
      k = "irmc_password" := by
    simpa [irmc_required_keys] using hmem
  cases hl : info.lookup k with
  | some v => rfl
  | none =>
    rcases hcases with hk | hk | hk <;> subst hk <;> rfl

/-- Claim C10 as amended: `parse_driver_info` raises
MissingParameterValue exactly when one of irmc_address, irmc_username,
irmc_password is absent or falsy (empty) in driver_info; otherwise,
provided the effective irmc_auth_method is a string, it raises
InvalidParameterValue exactly when that string is (case-insensitively)
neither "basic" nor "digest", or the effective irmc_port is neither 80
nor 443, or the effective irmc_client_timeout is not an integer, and
otherwise returns a mapping carrying the three required keys from
driver_info and the three optional keys defaulted from configuration
when absent.  When the effective irmc_auth_method is not a string, the
`.lower()` call raises an uncaught AttributeError instead of
InvalidParameterValue. -/
theorem parse_driver_info_correct (conf : IrmcConf) (info : DriverInfo) :
    (irmc_missing_info info ≠ [] ↔
      ∃ k ∈ irmc_required_keys, irmc_key_missing info k = true) ∧
    (irmc_missing_info info ≠ [] →
      parse_driver_info conf info =
        .error (.missingParameterValue (irmc_missing_msg info))) ∧
    (irmc_missing_info info = [] →
      (∀ n : Int, irmc_effective conf info "auth_method" = JVal.i n →
        parse_driver_info conf info = .error IrmcErr.attributeError) ∧
      (∀ a : String, irmc_effective conf info "auth_method" = JVal.s a →
        (irmc_value_errors conf info a = [] ↔
          ((str_lower a = "basic" ∨ str_lower a = "digest") ∧
           (irmc_effective conf info "port" = JVal.i 80 ∨
            irmc_effective conf info "port" = JVal.i 443) ∧
           (irmc_effective conf info "client_timeout").is_int = true)) ∧
        (irmc_value_errors conf info a ≠ [] →
          parse_driver_info conf info =
            .error (.invalidParameterValue
              (irmc_invalid_msg conf info a))) ∧
        (irmc_value_errors conf info a = [] →
          parse_driver_info conf info = .ok (irmc_d_info conf info) ∧
          (∀ k, irmc_required_keys.contains k = true →
            (irmc_d_info conf info).lookup k = info.lookup k) ∧
          (irmc_d_info conf info).lookup "irmc_port" =
            some (irmc_effective conf info "port") ∧
          (irmc_d_info conf info).lookup "irmc_auth_method" =
            some (irmc_effective conf info "auth_method") ∧
          (irmc_d_info conf info).lookup "irmc_client_timeout" =
            some (irmc_effective conf info "client_timeout")))) := by
  refine ⟨?_, ?_, ?_⟩
  · unfold irmc_missing_info
    constructor
    · intro h
      by_contra hno
      push_neg at hno
      apply h
      apply List.filter_eq_nil_iff.mpr
      intro k hk
      have := hno k hk
      simp [this]
    · rintro ⟨k, hk, hp⟩ hnil
      have := List.filter_eq_nil_iff.mp hnil k hk
      rw [hp] at this
      exact this rfl
  · intro hne
    simp [parse_driver_info, hne]
  · intro hmiss
    constructor
    · intro n heff
      have hl := irmc_d_info_lookup_auth conf info
      rw [heff] at hl
      simp [parse_driver_info, hmiss, hl]
    · intro a heff
      have hl := irmc_d_info_lookup_auth conf info
      rw [heff] at hl
      have he2 :
          ((if (irmc_d_info conf info).lookup "irmc_port" ≠
                some (JVal.i 80) ∧
              (irmc_d_info conf info).lookup "irmc_port" ≠
                some (JVal.i 443) then
            (["irmc_port has unsupported value."] : List String)
          else []) = []) ↔
          (irmc_effective conf info "port" = JVal.i 80 ∨
           irmc_effective conf info "port" = JVal.i 443) := by
        rw [irmc_d_info_lookup_port]
        by_cases h80 : irmc_effective conf info "port" = JVal.i 80 <;>
          by_cases h443 : irmc_effective conf info "port" = JVal.i 443 <;>
          simp [h80, h443]
      have he3 :
          ((match (irmc_d_info conf info).lookup "irmc_client_timeout" with
            | some v =>
              if v.is_int then ([] : List String)
              else ["irmc_client_timeout is not integer type."]
            | none => ["irmc_client_timeout is not integer type."]) = []) ↔
          (irmc_effective conf info "client_timeout").is_int = true := by
        rw [irmc_d_info_lookup_timeout]
        cases hit : (irmc_effective conf info "client_timeout").is_int <;>
          simp [hit]
      have he1 :
          ((if str_lower a ≠ "basic" ∧ str_lower a ≠ "digest" then
            (["irmc_auth_method has unsupported value."] : List String)
          else []) = []) ↔
          (str_lower a = "basic" ∨ str_lower a = "digest") := by
        by_cases h1 : str_lower a = "basic" <;>
          by_cases h2 : str_lower a = "digest" <;> simp [h1, h2]
      refine ⟨?_, ?_, ?_⟩
      · unfold irmc_value_errors
        rw [List.append_eq_nil, List.append_eq_nil]
        rw [he1, he2, he3]
        rw [and_assoc]
      · intro hne
        simp [parse_driver_info, hmiss, hl, hne]
      · intro hval
        refine ⟨?_, ?_, irmc_d_info_lookup_port conf info,
          irmc_d_info_lookup_auth conf info,
          irmc_d_info_lookup_timeout conf info⟩
        · simp [parse_driver_info, hmiss, hl, hval]
        · intro k hk
          exact irmc_d_info_lookup_required conf info k hk

/-- The default iRMC configuration group. -/
def irmc_demo_conf : IrmcConf :=
  { port := 443, auth_method := "basic", client_timeout := 60 }

/-- A driver_info carrying the three required keys and an integer
irmc_auth_method. -/
def irmc_bad_auth_info : DriverInfo :=
  [("irmc_address", JVal.s "10.0.0.1"), ("irmc_username", JVal.s "admin"),
   ("irmc_password", JVal.s "pw"), ("irmc_auth_method", JVal.i 1)]

/-- Counterexample to claim C10 as stated: with the required keys
present and irmc_auth_method = 1 (an integer, case-insensitively
neither "basic" nor "digest"), the claim demands InvalidParameterValue,
but `d_info['irmc_auth_method'].lower()` raises an uncaught
AttributeError (`int` has no attribute `lower`) before the value checks
run. -/
theorem parse_driver_info_claim_counterexample :
    parse_driver_info irmc_demo_conf irmc_bad_auth_info =
      .error IrmcErr.attributeError := by
  decide

/-- A minimal valid driver_info: only the required keys, as non-empty
strings. -/
def irmc_good_info : DriverInfo :=
  [("irmc_address", JVal.s "10.0.0.1"), ("irmc_username", JVal.s "admin"),
   ("irmc_password", JVal.s "pw")]

/-- A driver_info whose irmc_password is the empty string. -/
def irmc_missing_pw_info : DriverInfo :=
  [("irmc_address", JVal.s "10.0.0.1"), ("irmc_username", JVal.s "admin"),
   ("irmc_password", JVal.s "")]

/-- Witness for C10 (amended): the minimal valid driver_info parses to
`d_info` with port/auth/timeout defaulted from configuration, and the
empty-password driver_info raises MissingParameterValue. -/
theorem parse_driver_info_correct_witness :
    (parse_driver_info irmc_demo_conf irmc_good_info =
        .ok (irmc_d_info irmc_demo_conf irmc_good_info) ∧
      (irmc_d_info irmc_demo_conf irmc_good_info).lookup "irmc_port" =
        some (irmc_effective irmc_demo_conf irmc_good_info "port") ∧
      (irmc_d_info irmc_demo_conf irmc_good_info).lookup
          "irmc_auth_method" =
        some (irmc_effective irmc_demo_conf irmc_good_info
          "auth_method") ∧
      (irmc_d_info irmc_demo_conf irmc_good_info).lookup
          "irmc_client_timeout" =
        some (irmc_effective irmc_demo_conf irmc_good_info
          "client_timeout")) ∧
    parse_driver_info irmc_demo_conf irmc_missing_pw_info =
      .error (.missingParameterValue
        (irmc_missing_msg irmc_missing_pw_info)) := by
  have hmain := ((parse_driver_info_correct irmc_demo_conf
      irmc_good_info).2.2 (by decide)).2 "basic" (by decide)
  have hok := hmain.2.2 (by decide)
  refine ⟨⟨hok.1, hok.2.2.1, hok.2.2.2.1, hok.2.2.2.2⟩, ?_⟩
  exact (parse_driver_info_correct irmc_demo_conf
    irmc_missing_pw_info).2.1 (by decide)

end Ironic
